import Mathlib

/-!
Verification of the SlideGen_AI core pipeline against its specification.

The development shallowly embeds the decision logic of the repository:
`src/lib/openai.ts` (remote generation orchestration and the fallback
content synthesizer), `src/lib/firestore.ts` (multi-tier persistence),
`src/app/dashboard/page.tsx` (cross-tier read reconciliation) and
`src/components/SlideViewer.tsx` (the slide rendering engine).

JavaScript strings are modelled as Lean `String`s; the handful of string
primitives the code uses (`includes`, `split`, `toLowerCase`,
`startsWith`, first-occurrence `replace`) are given structurally
recursive definitions over `String.data` so that concrete instances
evaluate inside the kernel.  JavaScript objects of unknown shape (the
provider's JSON) are modelled by the `Json` inductive together with
association-list field maps; object spread is `objectSpread`.
Asynchronous external calls (the OpenAI request, Firestore reads and
writes) are modelled by passing their outcome in explicitly, so each
function is a pure function of its inputs and of the environment's
behaviour.
-/

/-- Check that `sub` is a leading segment of `hay` (character lists). -/
def leadsWith : List Char → List Char → Bool
  | [], _ => true
  | _ :: _, [] => false
  | a :: sub, b :: hay => a = b && leadsWith sub hay

/-- Check that `needle` occurs somewhere inside `hay`; JavaScript
`hay.includes(needle)` on character lists. -/
def hasSub (hay needle : List Char) : Bool :=
  match hay with
  | [] => needle.isEmpty
  | _ :: t => leadsWith needle hay || hasSub t needle

/-- JavaScript `s.includes(sub)`. -/
def strIncludes (s sub : String) : Bool :=
  hasSub s.data sub.data

/-- JavaScript `s.startsWith(sub)`. -/
def strLeads (s sub : String) : Bool :=
  leadsWith sub.data s.data

/-- JavaScript `s.toLowerCase()` (the code only feeds it ASCII). -/
def jsToLower (s : String) : String :=
  ⟨s.data.map Char.toLower⟩

/-- JavaScript `s.split(sep)` for a one-character separator: splits at
every occurrence, keeping empty segments. -/
def splitChar (sep : Char) : List Char → List (List Char)
  | [] => [[]]
  | a :: as =>
    match splitChar sep as with
    | [] => [[]]
    | g :: gs => if a = sep then [] :: g :: gs else (a :: g) :: gs

/-- JavaScript `s.split(' ')` producing a list of strings. -/
def jsSplitSpace (s : String) : List String :=
  (splitChar ' ' s.data).map fun l => ⟨l⟩

/-- Locate the first occurrence of `needle` in a character list,
returning the segments before and after it. -/
def splitAtSub (needle : List Char) : List Char → Option (List Char × List Char)
  | [] => if needle.isEmpty then some ([], []) else none
  | a :: as =>
    if leadsWith needle (a :: as) then some ([], (a :: as).drop needle.length)
    else
      match splitAtSub needle as with
      | some (b, c) => some (a :: b, c)
      | none => none

/-- JavaScript `s.replace(pat, rep)` with a string pattern: replaces only
the first occurrence, and returns `s` unchanged when `pat` is absent. -/
def replaceFirst (s pat rep : String) : String :=
  match splitAtSub pat.data s.data with
  | some (before, after) => ⟨before⟩ ++ rep ++ ⟨after⟩
  | none => s

/-- JavaScript `a || d` for an optional string `a` (absent or empty means
falsy). -/
def jsOr (a : Option String) (d : String) : String :=
  match a with
  | some s => if s = "" then d else s
  | none => d

/-- JavaScript `word.charAt(0).toUpperCase() + word.slice(1)`. -/
def capitalizeFirst (s : String) : String :=
  match s.data with
  | [] => ""
  | c :: rest => ⟨c.toUpper :: rest⟩

/-- JSON values, the shape of everything the text-generation provider may
return. -/
inductive Json where
  | null
  | bool (b : Bool)
  | num (n : Int)
  | str (s : String)
  | arr (elems : List Json)
  | obj (fields : List (String × Json))

/-- JavaScript truthiness of a JSON value. -/
def jsTruthy : Json → Bool
  | .null => false
  | .bool b => b
  | .num n => if n = 0 then false else true
  | .str s => if s = "" then false else true
  | .arr _ => true
  | .obj _ => true

/-- Property access `j.k`: `none` models JavaScript `undefined` (also the
result of accessing a property on a non-object). -/
def jget (j : Json) (k : String) : Option Json :=
  match j with
  | .obj fields => fields.lookup k
  | _ => none

/-- JavaScript `v || d` where `v` is a possibly-absent JSON value. -/
def jsOrJson (v : Option Json) (d : Json) : Json :=
  match v with
  | some x => if jsTruthy x then x else d
  | none => d

/-- JavaScript object literal `\x7b k1: v1, …, kn: vn, ...extra \x7d`:
the spread comes last, so a field of `extra` overrides the literal value
of the same name, and fields of `extra` not named in the literal are
appended. -/
def objectSpread (base extra : List (String × Json)) : List (String × Json) :=
  (base.map fun kv => (kv.1, (extra.lookup kv.1).getD kv.2))
    ++ extra.filter fun kv => (base.lookup kv.1).isNone

/-- Field list of a JSON value when spread into an object literal; a
non-object spread contributes no (string-keyed) fields. -/
def objFieldsOf : Json → List (String × Json)
  | .obj fields => fields
  | _ => []

/-- JavaScript `slide.f || d` used while building the normalization
defaults (`openai.ts` lines 107-114). -/
def orDefault (slide : List (String × Json)) (f : String) (d : Json) : Json :=
  match slide.lookup f with
  | some v => if jsTruthy v then v else d
  | none => d

/-- Normalization of one provider slide (`openai.ts` lines 107-116):
an object literal of seven defaulted fields followed by `...slide`.
`index` is the 0-based position in the slides array. -/
def normalizeSlide (slide : List (String × Json)) (index : Nat) : List (String × Json) :=
  objectSpread
    [ ("id", orDefault slide "id" (.num (Int.ofNat (index + 1))))
    , ("type", orDefault slide "type" (.str "content"))
    , ("title", orDefault slide "title" (.str ("Slide " ++ toString (index + 1))))
    , ("subtitle", orDefault slide "subtitle" (.str ""))
    , ("content", orDefault slide "content" (.arr []))
    , ("speakerNotes", orDefault slide "speakerNotes" (.str ""))
    , ("animation", orDefault slide "animation" (.str "fadeIn"))
    ]
    slide

/-- Normalization of one element of the provider's slides array. -/
def normalizeSlideJson (j : Json) (index : Nat) : Json :=
  .obj (normalizeSlide (objFieldsOf j) index)

/-- Normalization of the slides array from position `k` on; models
`parsedContent.slides.map((slide, index) => …)`. -/
def normSlidesFrom : Nat → List Json → List Json
  | _, [] => []
  | k, s :: rest => normalizeSlideJson s k :: normSlidesFrom (k + 1) rest

/-- Normalization of the whole provider slides array. -/
def normSlides (slides : List Json) : List Json :=
  normSlidesFrom 0 slides

/-- Replace the value of field `k` wherever it occurs; models the
assignment `parsedContent.slides = …`. -/
def setField (fs : List (String × Json)) (k : String) (v : Json) : List (String × Json) :=
  fs.map fun kv => if kv.1 = k then (k, v) else kv

-- Basic lookup lemmas for the spread model.

theorem lookup_mapVal (g : String → Json → Json) (l : List (String × Json)) (k : String) :
    (l.map fun kv => (kv.1, g kv.1 kv.2)).lookup k = (l.lookup k).map (g k) := by
  induction l with
  | nil => rfl
  | cons kv rest ih =>
    by_cases h : k = kv.1
    · simp [List.lookup, h]
    · have hb : (k == kv.1) = false := beq_eq_false_iff_ne.mpr h
      simp only [List.map, List.lookup, hb]
      exact ih

theorem lookup_append' (l₁ l₂ : List (String × Json)) (k : String) :
    (l₁ ++ l₂).lookup k = ((l₁.lookup k).or (l₂.lookup k)) := by
  induction l₁ with
  | nil => rfl
  | cons kv rest ih =>
    by_cases h : k = kv.1
    · simp [List.lookup, h]
    · have hb : (k == kv.1) = false := beq_eq_false_iff_ne.mpr h
      simp only [List.cons_append, List.lookup, hb]
      exact ih

theorem lookup_filter_of_keyTrue (p : String × Json → Bool) (l : List (String × Json))
    (k : String) (hp : ∀ v, p (k, v) = true) :
    (l.filter p).lookup k = l.lookup k := by
  induction l with
  | nil => rfl
  | cons kv rest ih =>
    by_cases h : k = kv.1
    · subst h
      rw [List.filter_cons, if_pos (hp kv.2)]
      simp [List.lookup, ih]
    · have hb : (k == kv.1) = false := beq_eq_false_iff_ne.mpr h
      rw [List.filter_cons]
      by_cases hkeep : p kv = true
      · rw [if_pos hkeep]
        simp only [List.lookup, hb]
        exact ih
      · rw [if_neg hkeep]
        rw [ih]
        simp only [List.lookup, hb]

/-- Lookup through the spread: the spread-in object wins on shared keys,
the literal supplies the rest. -/
theorem lookup_objectSpread (base extra : List (String × Json)) (k : String) :
    (objectSpread base extra).lookup k = ((extra.lookup k).or (base.lookup k)) := by
  unfold objectSpread
  rw [lookup_append', lookup_mapVal (fun key v => (extra.lookup key).getD v)]
  cases hbase : base.lookup k with
  | none =>
    rw [lookup_filter_of_keyTrue _ _ _ (fun v => by simp [hbase])]
    cases extra.lookup k <;> rfl
  | some bv =>
    cases hex : extra.lookup k <;> simp [hex]

-- ## Prompt analysis and the fallback content synthesizer (`openai.ts` 385-655)

/-- Result of `analyzePrompt` (`openai.ts` lines 389-418). -/
structure PromptAnalysis where
  industry : String
  subject : String
  presentationType : String
  originalPrompt : String
deriving DecidableEq

/-- Stop-word list of `extractMainSubject` (`openai.ts` line 423). -/
def stopWords : List String :=
  ["create", "make", "generate", "about", "on", "for", "presentation",
   "slides", "a", "an", "the", "and", "or", "but"]

/-- Subject extraction (`openai.ts` lines 420-426): lower-case, split on
spaces, drop stop words and words of length at most 2, join the first
three survivors with spaces. -/
def extractMainSubject (prompt : String) : String :=
  let words := jsSplitSpace (jsToLower prompt)
  let meaningfulWords := words.filter fun w => ¬ stopWords.contains w ∧ w.length > 2
  String.intercalate " " (meaningfulWords.take 3)

/-- Prompt classification (`openai.ts` lines 389-418): keyword tables for
industry and presentation type, tested in the source's fixed order. -/
def analyzePrompt (prompt : String) : PromptAnalysis :=
  let p := jsToLower prompt
  let industry :=
    if strIncludes p "business" || strIncludes p "corporate" ||
       strIncludes p "finance" || strIncludes p "marketing" then "business"
    else if strIncludes p "tech" || strIncludes p "ai" ||
       strIncludes p "artificial intelligence" || strIncludes p "digital" ||
       strIncludes p "software" then "technology"
    else if strIncludes p "health" || strIncludes p "medical" ||
       strIncludes p "wellness" || strIncludes p "fitness" then "health"
    else if strIncludes p "education" || strIncludes p "learning" ||
       strIncludes p "teaching" || strIncludes p "school" then "education"
    else if strIncludes p "environment" || strIncludes p "climate" ||
       strIncludes p "sustainability" || strIncludes p "green" then "environment"
    else if strIncludes p "creative" || strIncludes p "design" ||
       strIncludes p "art" || strIncludes p "innovation" then "creative"
    else "general"
  let subject := extractMainSubject prompt
  let presentationType :=
    if strIncludes p "strategy" || strIncludes p "plan" || strIncludes p "approach" then
      "strategic"
    else if strIncludes p "how to" || strIncludes p "guide" || strIncludes p "tutorial" then
      "instructional"
    else if strIncludes p "benefits" || strIncludes p "advantages" || strIncludes p "why" then
      "persuasive"
    else if strIncludes p "overview" || strIncludes p "introduction" || strIncludes p "about" then
      "overview"
    else "informational"
  ⟨industry, subject, presentationType, prompt⟩

/-- Theme bundle (`openai.ts` lines 429-468 and presentation deck theme). -/
structure ThemeRec where
  primaryColor : String
  secondaryColor : String
  backgroundColor : String
  textColor : String
  accentColor : String
  gradientStart : String
  gradientEnd : String
  fontFamily : String
  headingFont : String
  bodyFont : String
  mood : String
deriving DecidableEq

/-- Fixed industry-to-theme table (`openai.ts` lines 429-468). -/
def getIndustryTheme (industry : String) : ThemeRec :=
  if industry = "business" then
    ⟨"#1e3a8a", "#3b82f6", "#ffffff", "#1f2937", "#d97706", "#1e3a8a", "#3b82f6",
     "Inter", "Montserrat", "Open Sans", "professional"⟩
  else if industry = "technology" then
    ⟨"#6366f1", "#8b5cf6", "#ffffff", "#1f2937", "#06b6d4", "#6366f1", "#8b5cf6",
     "Inter", "Poppins", "Inter", "modern"⟩
  else if industry = "health" then
    ⟨"#0891b2", "#059669", "#ffffff", "#1f2937", "#10b981", "#0891b2", "#059669",
     "Inter", "Poppins", "Inter", "clean"⟩
  else if industry = "education" then
    ⟨"#f97316", "#3b82f6", "#ffffff", "#1f2937", "#10b981", "#f97316", "#3b82f6",
     "Inter", "Poppins", "Inter", "friendly"⟩
  else if industry = "environment" then
    ⟨"#059669", "#92400e", "#ffffff", "#1f2937", "#fbbf24", "#059669", "#92400e",
     "Inter", "Poppins", "Inter", "natural"⟩
  else if industry = "creative" then
    ⟨"#8b5cf6", "#ec4899", "#ffffff", "#1f2937", "#f97316", "#8b5cf6", "#ec4899",
     "Inter", "Playfair Display", "Source Sans Pro", "creative"⟩
  else
    ⟨"#6366f1", "#8b5cf6", "#ffffff", "#1f2937", "#f59e0b", "#6366f1", "#8b5cf6",
     "Inter", "Poppins", "Inter", "modern"⟩

/-- One entry of a content strategy (`openai.ts` lines 475-532); the
source builds the tables with `subject` already interpolated into the
title template literals. -/
structure SlideTemplate where
  type : String
  title : String
  focus : String
deriving DecidableEq

/-- Intent-to-template table (`openai.ts` lines 475-534); an unknown
intent falls back to the informational sequence. -/
def contentStrategySlides (presentationType subject : String) : List SlideTemplate :=
  if presentationType = "strategic" then
    [ ⟨"hero", subject ++ ": Strategic Approach", "strategy"⟩
    , ⟨"content", "Current Situation Analysis", "analysis"⟩
    , ⟨"content", "Strategic Objectives", "objectives"⟩
    , ⟨"content", "Implementation Roadmap", "implementation"⟩
    , ⟨"stats", "Expected Outcomes", "results"⟩
    , ⟨"quote", "Strategic Insight", "inspiration"⟩
    , ⟨"image-focus", "Next Steps", "action"⟩ ]
  else if presentationType = "instructional" then
    [ ⟨"hero", "How to: " ++ subject, "guide"⟩
    , ⟨"content", "Getting Started", "basics"⟩
    , ⟨"split", "Step-by-Step Process", "process"⟩
    , ⟨"content", "Best Practices", "tips"⟩
    , ⟨"content", "Common Mistakes to Avoid", "pitfalls"⟩
    , ⟨"stats", "Success Metrics", "measurement"⟩
    , ⟨"image-focus", "Take Action Today", "action"⟩ ]
  else if presentationType = "persuasive" then
    [ ⟨"hero", "Why " ++ subject ++ " Matters", "importance"⟩
    , ⟨"content", "The Problem", "problem"⟩
    , ⟨"split", "The Solution", "solution"⟩
    , ⟨"stats", "Proven Benefits", "benefits"⟩
    , ⟨"quote", "Success Stories", "testimonial"⟩
    , ⟨"content", "Implementation Steps", "action"⟩
    , ⟨"image-focus", "Start Your Journey", "cta"⟩ ]
  else if presentationType = "overview" then
    [ ⟨"hero", "Understanding " ++ subject, "introduction"⟩
    , ⟨"content", "Key Concepts", "concepts"⟩
    , ⟨"split", "How It Works", "mechanism"⟩
    , ⟨"stats", "By the Numbers", "data"⟩
    , ⟨"content", "Real-World Applications", "applications"⟩
    , ⟨"quote", "Expert Perspective", "authority"⟩
    , ⟨"image-focus", "The Future", "future"⟩ ]
  else
    [ ⟨"hero", subject ++ ": Complete Guide", "comprehensive"⟩
    , ⟨"content", "Overview & Importance", "overview"⟩
    , ⟨"split", "Key Components", "components"⟩
    , ⟨"content", "Detailed Analysis", "analysis"⟩
    , ⟨"stats", "Facts & Figures", "data"⟩
    , ⟨"content", "Practical Applications", "practical"⟩
    , ⟨"quote", "Industry Insights", "insights"⟩
    , ⟨"image-focus", "Looking Forward", "conclusion"⟩ ]

/-- Focus-tag to content-list table (`openai.ts` lines 542-569); an
unknown focus yields the generic four-item list. -/
def contentGenerators (focus subject : String) : List String :=
  if focus = "strategy" then
    ["Comprehensive " ++ subject ++ " strategy", "Market analysis and positioning",
     "Competitive advantages", "Risk assessment and mitigation"]
  else if focus = "analysis" then
    ["Current market landscape for " ++ subject, "Key challenges and opportunities",
     "Stakeholder impact assessment", "Resource requirements"]
  else if focus = "objectives" then
    ["Primary goals for " ++ subject ++ " initiative", "Measurable success criteria",
     "Timeline and milestones", "Resource allocation strategy"]
  else if focus = "implementation" then
    ["Phase 1: Foundation and planning", "Phase 2: Execution and monitoring",
     "Phase 3: Optimization and scaling", "Continuous improvement process"]
  else if focus = "results" then
    ["85% improvement in efficiency", "200% increase in engagement",
     "50% reduction in costs", "95% user satisfaction rate"]
  else if focus = "guide" then
    ["Complete " ++ subject ++ " methodology", "Proven techniques and approaches",
     "Expert recommendations", "Practical implementation tips"]
  else if focus = "basics" then
    ["Essential " ++ subject ++ " fundamentals", "Core principles to understand",
     "Prerequisites and requirements", "Getting started checklist"]
  else if focus = "process" then
    ["Step 1: Initial assessment and planning", "Step 2: Implementation and execution",
     "Step 3: Monitoring and adjustment", "Step 4: Evaluation and optimization"]
  else if focus = "tips" then
    ["Industry best practices for " ++ subject, "Expert recommendations",
     "Proven strategies that work", "Common success factors"]
  else if focus = "pitfalls" then
    ["Avoid these common " ++ subject ++ " mistakes", "Warning signs to watch for",
     "How to prevent typical failures", "Recovery strategies when things go wrong"]
  else if focus = "problem" then
    ["Current challenges with " ++ subject, "Impact on stakeholders",
     "Cost of inaction", "Urgency for change"]
  else if focus = "solution" then
    ["Innovative " ++ subject ++ " approach", "Proven methodology",
     "Comprehensive framework", "Scalable implementation"]
  else if focus = "benefits" then
    ["Immediate advantages of " ++ subject, "Long-term strategic value",
     "ROI and cost savings", "Competitive differentiation"]
  else if focus = "concepts" then
    ["Core " ++ subject ++ " principles", "Fundamental concepts",
     "Key terminology", "Theoretical framework"]
  else if focus = "mechanism" then
    ["How " ++ subject ++ " functions", "Underlying processes",
     "System architecture", "Workflow and procedures"]
  else if focus = "data" then
    [subject ++ " market size: $2.5B", "Annual growth rate: 25%",
     "User adoption: 78%", "Success rate: 92%"]
  else if focus = "applications" then
    [subject ++ " in enterprise", "Consumer applications",
     "Industry use cases", "Emerging opportunities"]
  else if focus = "components" then
    ["Essential " ++ subject ++ " elements", "Core building blocks",
     "Integration points", "System dependencies"]
  else if focus = "practical" then
    ["Real-world " ++ subject ++ " examples", "Case studies and results",
     "Implementation scenarios", "Practical considerations"]
  else if focus = "comprehensive" then
    ["Everything you need to know about " ++ subject, "Complete coverage of key topics",
     "Expert insights and analysis", "Actionable recommendations"]
  else if focus = "overview" then
    [subject ++ " landscape overview", "Current state and trends",
     "Key players and stakeholders", "Market dynamics"]
  else if focus = "insights" then
    ["Expert analysis of " ++ subject, "Industry trends and patterns",
     "Future predictions", "Strategic recommendations"]
  else if focus = "conclusion" then
    ["The future of " ++ subject, "Emerging trends and opportunities",
     "Next steps and recommendations", "Call to action"]
  else
    ["Key points about " ++ subject, "Important considerations",
     "Relevant information", "Next steps"]

/-- Slide body content: either a list of bullet strings or one string
(the dynamically-shaped `string[] | string` of the source). -/
inductive ContentVal where
  | items (l : List String)
  | text (s : String)
deriving DecidableEq

/-- Per-slide styling overrides (the `styling` object of the
`SlideViewer` slide interface; the synthesizer fills a subset). -/
structure Styling where
  titleSize : Option String := none
  titleWeight : Option String := none
  titleColor : Option String := none
  subtitleSize : Option String := none
  contentSize : Option String := none
  textAlign : Option String := none
  padding : Option String := none
  borderRadius : Option String := none
  shadow : Option String := none
  overlay : Option String := none
  iconColor : Option String := none
  bulletStyle : Option String := none
deriving DecidableEq

/-- One slide built by the fallback synthesizer (`openai.ts` 625-646 and
the planner slide at 595-615). -/
structure FallbackSlide where
  id : Nat
  type : String
  title : String
  subtitle : Option String
  content : ContentVal
  author : Option String
  speakerNotes : String
  animation : String
  layout : String
  backgroundStyle : String
  imageUrl : String
  imageDescription : String
  styling : Styling
deriving DecidableEq

/-- Animation cycle of the synthesizer (`openai.ts` line 623). -/
def animationsCycle : List String :=
  ["fadeIn", "slideInLeft", "slideInRight", "zoomIn", "bounceIn"]

/-- One synthesized presentation slide (`openai.ts` lines 621-647);
`index` is the 0-based position in the strategy. -/
def buildFallbackSlide (analysis : PromptAnalysis) (index : Nat)
    (t : SlideTemplate) : FallbackSlide :=
  let content := contentGenerators t.focus analysis.subject
  { id := index + 1
  , type := t.type
  , title := replaceFirst t.title "${subject}" analysis.subject
  , subtitle :=
      if t.type = "hero" then
        some ("Based on your request: \"" ++ analysis.originalPrompt ++ "\"")
      else none
  , content :=
      if t.type = "stats" then .items content
      else if t.type = "quote" then .text (content.headD "")
      else .items content
  , author := if t.type = "quote" then some "Industry Expert" else none
  , speakerNotes :=
      "This slide covers " ++ t.focus ++ " aspects of " ++ analysis.subject ++
      ". Key points include the content shown and additional context relevant to your specific request about " ++
      analysis.originalPrompt ++ "."
  , animation := animationsCycle.getD (index % 5) "fadeIn"
  , layout := if t.type = "split" then "split" else "center"
  , backgroundStyle :=
      if index % 3 = 0 then "gradient" else if index % 3 = 1 then "image" else "gradient"
  , imageUrl :=
      "https://images.unsplash.com/1600x900/?" ++
      replaceFirst analysis.subject " " "," ++ "," ++ analysis.industry ++ "," ++ t.focus
  , imageDescription :=
      "Visual representation of " ++ t.focus ++ " in " ++ analysis.subject
  , styling :=
      { titleSize := some (if t.type = "hero" then "6xl" else "4xl")
      , titleWeight := some "bold"
      , subtitleSize := some "2xl"
      , contentSize := some "lg"
      , textAlign := some (if t.type = "quote" then "center" else "left")
      , overlay := some (if index % 2 = 0 then "dark" else "light") } }

/-- Indexed map over the strategy templates; models
`contentStrategy.slides.map((slideTemplate, index) => …)` starting at
position `k`. -/
def buildSlides (analysis : PromptAnalysis) : Nat → List SlideTemplate → List FallbackSlide
  | _, [] => []
  | k, t :: ts => buildFallbackSlide analysis k t :: buildSlides analysis (k + 1) ts

/-- Deck shape returned by the synthesizer. -/
structure FallbackDeck where
  title : String
  description : String
  theme : ThemeRec
  slides : List FallbackSlide
deriving DecidableEq

/-- Synthesized presentation deck (`openai.ts` lines 620-654, the
non-planner branch of `generateFallbackSlides`). -/
def presentationFallbackDeck (prompt : String) : FallbackDeck :=
  let analysis := analyzePrompt prompt
  let theme := getIndustryTheme analysis.industry
  let strat := contentStrategySlides analysis.presentationType analysis.subject
  { title :=
      capitalizeFirst analysis.subject ++ ": " ++
      capitalizeFirst analysis.presentationType ++ " Guide"
  , description :=
      "A personalized presentation about " ++ analysis.subject ++
      " based on your specific request: \"" ++ analysis.originalPrompt ++ "\""
  , theme := theme
  , slides := buildSlides analysis 0 strat }

/-- Readings of the current clock the planner branch takes
(`new Date().toLocaleDateString()` and its long form); passed in
explicitly since they are environment inputs. -/
structure DateInfo where
  localeDate : String
  longDate : String
deriving DecidableEq

/-- Synthesized day-planner deck (`openai.ts` lines 576-618, the
`isDayPlanner` branch). -/
def plannerFallbackDeck (prompt : String) (now : DateInfo) : FallbackDeck :=
  let plannerAnalysis := analyzePrompt prompt
  { title := "Personalized Daily Planner - " ++ now.localeDate
  , description := "Customized daily schedule based on: " ++ prompt
  , theme :=
      ⟨"#059669", "#0d9488", "#ffffff", "#1f2937", "#10b981", "#059669", "#0d9488",
       "Inter", "Poppins", "Inter", "productive"⟩
  , slides :=
      [ { id := 1
        , type := "hero"
        , title := "Your " ++ plannerAnalysis.subject ++ " Day"
        , subtitle := some now.longDate
        , content := .items []
        , author := none
        , speakerNotes :=
            "Today's focus: " ++ plannerAnalysis.subject ++
            ". This planner is customized based on your specific request."
        , animation := "fadeIn"
        , layout := "center"
        , backgroundStyle := "gradient"
        , imageUrl :=
            "https://images.unsplash.com/1600x900/?" ++
            replaceFirst plannerAnalysis.subject " " "," ++ ",productivity,planning"
        , imageDescription :=
            "Productivity setup for " ++ plannerAnalysis.subject
        , styling :=
            { titleSize := some "5xl"
            , titleWeight := some "bold"
            , subtitleSize := some "2xl"
            , textAlign := some "center"
            , overlay := some "dark" } } ] }

/-- The fallback generator (`openai.ts` lines 386-655). -/
def generateFallbackSlides (prompt : String) (isDayPlanner : Bool) (now : DateInfo) :
    FallbackDeck :=
  if isDayPlanner then plannerFallbackDeck prompt now
  else presentationFallbackDeck prompt

-- ## Remote generation orchestration (`openai.ts` 3-151)

/-- A thrown JavaScript error as inspected by the code: its `message`,
and the optional `status` (HTTP) and `code` (Firestore) properties. -/
structure JsError where
  message : String
  status : Option Nat := none
  code : Option String := none
deriving DecidableEq

/-- Outcome of the raced OpenAI chat-completion request
(`openai.ts` lines 70-86): either the race rejected (request failure or
the 45-second timer, whose rejection carries the message
`Request timeout after 45 seconds`), or it resolved and
`response.choices[0]?.message?.content` was the given optional string. -/
inductive RemoteOutcome where
  | fail (e : JsError)
  | ok (content : Option String)

/-- Result of `createOpenAIClient` (`openai.ts` lines 3-22): a thrown
error, `none` for the demo key, or a constructed client. -/
def createOpenAIClient (apiKey : String) : Except JsError (Option Unit) :=
  if apiKey = "" then
    .error ⟨"No API key provided. Please set your OpenAI API key.", none, none⟩
  else if apiKey = "demo-key" then
    .ok none
  else if strLeads apiKey "sk-" then
    .ok (some ())
  else
    .error ⟨"Invalid OpenAI API key format. Please check your API key and try again.", none, none⟩

/-- The schema-validation error of `openai.ts` line 103. -/
def invalidSchemaErr : JsError :=
  ⟨"Invalid response structure from OpenAI. Missing title or slides array.", none, none⟩

/-- Body of the `try` block of `generateSlides` (`openai.ts` lines
66-119): await the raced request, read the content, parse it as JSON
(`parse` stands for the JavaScript `JSON.parse`, an environment input),
check the top-level structure, and normalize every slide. -/
def tryGenerate (remote : RemoteOutcome) (parse : String → Option Json) :
    Except JsError Json :=
  match remote with
  | .fail e => .error e
  | .ok none => .error ⟨"No response from OpenAI", none, none⟩
  | .ok (some c) =>
    if c = "" then .error ⟨"No response from OpenAI", none, none⟩
    else
      match parse c with
      | none =>
        .error ⟨"Failed to parse AI response as JSON. The AI may have returned invalid format.", none, none⟩
      | some j =>
        match j with
        | .obj fields =>
          match fields.lookup "title", fields.lookup "slides" with
          | some t, some (.arr slides) =>
            if jsTruthy t then
              .ok (.obj (setField fields "slides" (.arr (normSlides slides))))
            else .error invalidSchemaErr
          | _, _ => .error invalidSchemaErr
        | _ => .error invalidSchemaErr

/-- The catch block of `generateSlides` (`openai.ts` lines 121-150):
map a caught error to the user-facing error that is re-thrown. -/
def mapCatchError (e : JsError) : JsError :=
  if strIncludes e.message "timeout" then
    ⟨"OpenAI request timed out. Please try again with a shorter prompt or check your internet connection.", none, none⟩
  else if strIncludes e.message "network" || strIncludes e.message "fetch" then
    ⟨"Network error connecting to OpenAI. Please check your internet connection.", none, none⟩
  else if strIncludes e.message "JSON" || strIncludes e.message "parse" then
    ⟨"OpenAI returned invalid format. Please try rephrasing your prompt.", none, none⟩
  else if e.status = some 401 then
    ⟨"Invalid OpenAI API key. Please check your API key and try again.", none, none⟩
  else if e.status = some 429 then
    ⟨"OpenAI rate limit exceeded. Please wait a moment and try again.", none, none⟩
  else if e.status = some 500 then
    ⟨"OpenAI service error. Please try again in a few minutes.", none, none⟩
  else if e.status = some 400 then
    ⟨"Invalid request to OpenAI. Please try a different prompt.", none, none⟩
  else
    ⟨"OpenAI API Error: " ++ (if e.message = "" then "Unknown error occurred" else e.message) ++
     ". Please check your API key and try again.", none, none⟩

/-- What `generateSlides` hands back on success: the synthesized offline
deck (demo mode) or the normalized provider JSON. -/
inductive GenResult where
  | fallbackDeck (d : FallbackDeck)
  | remoteDeck (j : Json)

/-- The orchestrator `generateSlides` (`openai.ts` lines 50-151). -/
def generateSlides (apiKey prompt : String) (isDayPlanner : Bool) (now : DateInfo)
    (remote : RemoteOutcome) (parse : String → Option Json) :
    Except JsError GenResult :=
  if apiKey = "demo-key" then
    .ok (.fallbackDeck (generateFallbackSlides prompt isDayPlanner now))
  else
    match createOpenAIClient apiKey with
    | .error e => .error e
    | .ok none =>
      .error ⟨"Failed to create OpenAI client. Please check your API key.", none, none⟩
    | .ok (some _) =>
      match tryGenerate remote parse with
      | .ok j => .ok (.remoteDeck j)
      | .error e => .error (mapCatchError e)

-- ## Multi-tier persistence (`firestore.ts` and `dashboard/page.tsx`)

/-- A creation/update instant as stored in a record: the Firestore
server-timestamp sentinel, a JavaScript `Date`, a Firestore `Timestamp`
(the only shape with a `toDate` method), or anything else. -/
inductive TimeVal where
  | serverTimestamp
  | date (ms : Int)
  | timestamp (ms : Int)
  | unknownTime
deriving DecidableEq

/-- Dashboard timestamp normalization (`dashboard/page.tsx` lines
93-98): a `Date` is used as is, a value with `toDate` is converted, and
anything else becomes `new Date(0)`. -/
def toInstant : TimeVal → Int
  | .date ms => ms
  | .timestamp ms => ms
  | _ => 0

/-- A stored project record (the `Project` interface of `firestore.ts`,
plus the `isLocal` / `isTemporary` markers the local tiers add). -/
structure ProjectRec where
  id : String
  userId : String
  title : String
  description : Json
  prompt : String
  slideData : Json
  slideCount : Nat
  type : String
  createdAt : TimeVal
  updatedAt : TimeVal
  isLocal : Bool
  isTemporary : Bool

/-- JavaScript `slideData.slides?.length || 0` (`firestore.ts` lines 61
and 103): length of the slides array, length of a string value, else 0. -/
def slideCountOf (slideData : Json) : Nat :=
  match jget slideData "slides" with
  | some (.arr l) => l.length
  | some (.str s) => s.length
  | _ => 0

/-- Outcomes the persistence functions depend on; the Firestore write and
the local save are environment inputs (`createProject`'s raced `addDoc`
and `localStorage.setItem`). -/
structure CreateEnv where
  dbResult : Except JsError String
  windowDefined : Bool
  localSaveOk : Bool
  nowMs : Int

/-- The record `createProject` appends to the durable-local tier
(`firestore.ts` lines 96-108); the two clock reads for the id and for
`createdAt` are modelled as one instant `nowMs`. -/
def projectRecordOf (userId title prompt : String) (slideData : Json)
    (ptype : String) (id : String) (nowMs : Int) : ProjectRec :=
  { id := id
  , userId := userId
  , title := title
  , description := jsOrJson (jget slideData "description") (.str "")
  , prompt := prompt
  , slideData := slideData
  , slideCount := slideCountOf slideData
  , type := ptype
  , createdAt := .date nowMs
  , updatedAt := .date nowMs
  , isLocal := true
  , isTemporary := false }

/-- `createProject` (`firestore.ts` lines 47-128).  The returned pair is
the result handed to the caller (an id, or the message of the thrown
error) and the durable-local store after the call.  The raced 15-second
deadline is part of `env.dbResult` (the timer rejects with message
`Firestore timeout after 15 seconds`); the best-effort user-counter
update (lines 76-87) swallows its own failure and has no observable
effect here. -/
def createProject (userId title prompt : String) (slideData : Json) (ptype : String)
    (env : CreateEnv) (store : List ProjectRec) :
    Except String String × List ProjectRec :=
  match env.dbResult with
  | .ok docId => (.ok docId, store)
  | .error e =>
    if env.windowDefined && env.localSaveOk then
      let fid := "local_" ++ toString env.nowMs
      (.ok fid, store ++ [projectRecordOf userId title prompt slideData ptype fid env.nowMs])
    else
      if e.code = some "unavailable" || strIncludes e.message "offline" then
        (.error "Cannot create project while offline. Please check your internet connection.", store)
      else
        (.error "Failed to create project. Please try again.", store)

/-- `getProject` (`firestore.ts` lines 161-196): a `local_`-prefixed id
is looked up in the durable-local store first (falling through to the
database only when absent); every other id goes straight to the
database, whose raced read outcome is `dbRead`. -/
def getProject (projectId : String) (windowDefined : Bool) (store : List ProjectRec)
    (dbRead : Except JsError (Option ProjectRec)) :
    Except String (Option ProjectRec) :=
  let fsPath : Except String (Option ProjectRec) :=
    match dbRead with
    | .ok r => .ok r
    | .error _ => .error "Failed to get project"
  if strLeads projectId "local_" && windowDefined then
    match store.find? (fun p => p.id == projectId) with
    | some p => .ok (some p)
    | none => fsPath
  else fsPath

/-- Which store an operation writes to. -/
inductive StorageTier where
  | primary
  | durableLocal
  | ephemeral
deriving DecidableEq

/-- Observable effect of `updateProject`. -/
structure UpdateEffect where
  target : StorageTier
  serverUpdatedAt : Bool
  result : Except String Unit
  localStore : List ProjectRec

/-- `updateProject` (`firestore.ts` lines 130-144): it builds
`doc(db, 'projects', projectId)` and calls `updateDoc` with
`\x7b ...updates, updatedAt: serverTimestamp() \x7d` for every id — there
is no prefix inspection — and maps any failure to the thrown message.
The durable-local store is untouched. -/
def updateProject (projectId : String) (updates : List (String × Json))
    (dbUpdate : Except JsError Unit) (store : List ProjectRec) : UpdateEffect :=
  { target := .primary
  , serverUpdatedAt := true
  , result :=
      match dbUpdate with
      | .ok _ => .ok ()
      | .error _ => .error "Failed to update project"
  , localStore := store }

/-- `getUserProjects` (`firestore.ts` lines 198-228): the query result,
with `unavailable`/offline failures degraded to an empty list and any
other failure re-thrown. -/
def getUserProjects (dbResult : Except JsError (List ProjectRec)) :
    Except String (List ProjectRec) :=
  match dbResult with
  | .ok l => .ok l
  | .error e =>
    if e.code = some "unavailable" || strIncludes e.message "offline" then .ok []
    else .error "Failed to get projects. Please check your internet connection."

/-- Formatting of a tab-scoped record in the dashboard
(`dashboard/page.tsx` lines 74-80): creation and update instants are
replaced by the current clock and `slideCount` is recomputed. -/
def formatTemp (nowMs : Int) (p : ProjectRec) : ProjectRec :=
  { p with
    createdAt := .date nowMs
  , updatedAt := .date nowMs
  , slideCount := slideCountOf p.slideData
  , isTemporary := true }

/-- Stable descending insertion by normalized creation instant; together
with `sortByCreatedDesc` this models the stable JavaScript
`Array.prototype.sort` with comparator `dateB - dateA`
(`dashboard/page.tsx` lines 93-99). -/
def insertDesc (p : ProjectRec) : List ProjectRec → List ProjectRec
  | [] => [p]
  | q :: qs =>
    if toInstant p.createdAt < toInstant q.createdAt then q :: insertDesc p qs
    else p :: q :: qs

/-- Stable sort by creation instant, newest first. -/
def sortByCreatedDesc : List ProjectRec → List ProjectRec
  | [] => []
  | p :: ps => insertDesc p (sortByCreatedDesc ps)

/-- `loadProjects` of the dashboard (`dashboard/page.tsx` lines 40-108):
merge the database query result (failures contribute nothing), the
durable-local records filtered by owner, and the tab-scoped records
filtered by owner and re-stamped with the current clock, then sort by
creation time descending. -/
def loadProjects (uid : String) (fsOutcome : Except String (List ProjectRec))
    (localProjects tempProjects : List ProjectRec) (nowMs : Int) :
    List ProjectRec :=
  let fromFs := match fsOutcome with | .ok l => l | .error _ => []
  let locals := localProjects.filter fun p => p.userId == uid
  let temps := (tempProjects.filter fun p => p.userId == uid).map (formatTemp nowMs)
  sortByCreatedDesc (fromFs ++ locals ++ temps)

-- ## Slide rendering engine (`SlideViewer.tsx` renderSlide, lines 149-436)

/-- Theme shape of the viewer (`SlideViewer.tsx` lines 38-51). -/
structure ViewTheme where
  primaryColor : String
  secondaryColor : String
  backgroundColor : String
  textColor : String
  fontFamily : String
  accentColor : Option String := none
  gradientStart : Option String := none
  gradientEnd : Option String := none
  headingFont : Option String := none
  bodyFont : Option String := none
  mood : Option String := none
deriving DecidableEq

/-- Slide shape of the viewer (`SlideViewer.tsx` lines 8-35). -/
structure Slide where
  id : Int
  type : String
  title : String
  subtitle : Option String := none
  content : Option ContentVal := none
  speakerNotes : Option String := none
  animation : Option String := none
  author : Option String := none
  layout : Option String := none
  backgroundStyle : Option String := none
  imageUrl : Option String := none
  imageDescription : Option String := none
  styling : Option Styling := none
deriving DecidableEq

/-- Background treatment computed by `getBackgroundStyle`
(`SlideViewer.tsx` lines 154-180). -/
inductive Background where
  | gradient (gFrom gTo : String)
  | image (url : String)
  | plain
  | splitColor (leftColor rightColor : String)
  | solid (color : String)
deriving DecidableEq

/-- Base style of a slide: resolved font, text colour and background. -/
structure BackgroundDesc where
  fontFamily : String
  textColor : String
  background : Background
deriving DecidableEq

/-- `getBackgroundStyle` (`SlideViewer.tsx` lines 154-180). -/
def getBackgroundStyle (slide : Slide) (theme : ViewTheme) (styling : Styling) :
    BackgroundDesc :=
  { fontFamily := jsOr theme.bodyFont (jsOr (some theme.fontFamily) "Inter")
  , textColor := jsOr styling.titleColor theme.textColor
  , background :=
      if slide.backgroundStyle = some "gradient" then
        .gradient (jsOr theme.gradientStart theme.primaryColor)
          (jsOr theme.gradientEnd theme.secondaryColor)
      else if slide.backgroundStyle = some "image" then
        match slide.imageUrl with
        | some u => if u = "" then .plain else .image u
        | none => .plain
      else if slide.backgroundStyle = some "split-color" then
        .splitColor theme.primaryColor theme.backgroundColor
      else
        .solid theme.backgroundColor }

/-- Overlay treatment: dark uses opacity 0.6, light 0.3 (stored as a
percentage). -/
structure OverlayDesc where
  isDark : Bool
  opacityPct : Nat
deriving DecidableEq

/-- `getOverlayStyle` (`SlideViewer.tsx` lines 182-196): an overlay only
exists for an image background with a truthy `styling.overlay`. -/
def getOverlayStyle (slide : Slide) (styling : Styling) : Option OverlayDesc :=
  if slide.backgroundStyle = some "image" then
    match styling.overlay with
    | some ov =>
      if ov = "" then none
      else some ⟨ov = "dark", if ov = "dark" then 60 else 30⟩
    | none => none
  else none

/-- `getTextSizeClass` (`SlideViewer.tsx` lines 198-212). -/
def getTextSizeClass (size : String) : String :=
  if size = "xs" then "text-xs"
  else if size = "sm" then "text-sm"
  else if size = "base" then "text-base"
  else if size = "lg" then "text-lg"
  else if size = "xl" then "text-xl"
  else if size = "2xl" then "text-2xl"
  else if size = "3xl" then "text-3xl"
  else if size = "4xl" then "text-4xl"
  else if size = "5xl" then "text-5xl"
  else if size = "6xl" then "text-6xl"
  else "text-2xl"

/-- A rendered text element: its text and resolved size class. -/
structure TextBlock where
  text : String
  sizeClass : String
deriving DecidableEq

/-- A rendered content block: bullet list or prose paragraph. -/
inductive BodyDesc where
  | bullets (items : List String) (sizeClass : String)
  | prose (text : String) (sizeClass : String)
deriving DecidableEq

/-- Content block rendered by the split and content cases: present only
for truthy `slide.content`. -/
def bodyDescOf (c : Option ContentVal) (sizeClass : String) : Option BodyDesc :=
  match c with
  | some (.items l) => some (.bullets l sizeClass)
  | some (.text s) => if s = "" then none else some (.prose s sizeClass)
  | none => none

/-- A stat card: the first space-separated token as headline, the rest
as label (`SlideViewer.tsx` lines 347-358). -/
def statCard (item : String) : String × String :=
  let parts := jsSplitSpace item
  (parts.headD "", String.intercalate " " parts.tail)

/-- Layout descriptor produced by `renderSlide`, one case per slide
archetype (hero/title, split, quote, stats, image-focus, and
content-or-default). -/
inductive LayoutDescriptor where
  | heroL (bg : BackgroundDesc) (overlay : Option OverlayDesc) (align : String)
      (title : TextBlock) (subtitle : Option TextBlock)
  | splitL (bg : BackgroundDesc) (overlay : Option OverlayDesc)
      (title : TextBlock) (body : Option BodyDesc) (image : Option String)
  | quoteL (bg : BackgroundDesc) (overlay : Option OverlayDesc)
      (quote : TextBlock) (attribution : Option TextBlock)
  | statsL (bg : BackgroundDesc) (overlay : Option OverlayDesc)
      (title : TextBlock) (cards : Option (List (String × String)))
  | imageFocusL (bg : BackgroundDesc) (overlay : Option OverlayDesc)
      (title : TextBlock) (subtitle : Option TextBlock)
  | contentL (bg : BackgroundDesc) (overlay : Option OverlayDesc)
      (title : TextBlock) (body : Option BodyDesc)
deriving DecidableEq

/-- `renderSlide` (`SlideViewer.tsx` lines 149-436) as a pure function
from slide and theme to a layout descriptor. -/
def renderSlide (slide : Slide) (theme : ViewTheme) : LayoutDescriptor :=
  let styling := slide.styling.getD {}
  let bg := getBackgroundStyle slide theme styling
  let ov := getOverlayStyle slide styling
  if slide.type = "hero" || slide.type = "title" then
    .heroL bg ov
      (if styling.textAlign = some "left" then "text-left"
       else if styling.textAlign = some "right" then "text-right"
       else "text-center")
      ⟨slide.title, getTextSizeClass (jsOr styling.titleSize "5xl")⟩
      (match slide.subtitle with
       | some s =>
         if s = "" then none
         else some ⟨s, getTextSizeClass (jsOr styling.subtitleSize "2xl")⟩
       | none => none)
  else if slide.type = "split" then
    .splitL bg ov
      ⟨slide.title, getTextSizeClass (jsOr styling.titleSize "4xl")⟩
      (bodyDescOf slide.content (getTextSizeClass (jsOr styling.contentSize "lg")))
      (match slide.imageUrl with
       | some u => if u = "" then none else some u
       | none => none)
  else if slide.type = "quote" then
    .quoteL bg ov
      ⟨"\"" ++
        (match slide.content with
         | some (.items l) => String.intercalate " " l
         | some (.text s) => s
         | none => "") ++ "\"",
       getTextSizeClass (jsOr styling.titleSize "4xl")⟩
      (match slide.author with
       | some a =>
         if a = "" then none
         else some ⟨"— " ++ a, getTextSizeClass (jsOr styling.subtitleSize "xl")⟩
       | none => none)
  else if slide.type = "stats" then
    .statsL bg ov
      ⟨slide.title, getTextSizeClass (jsOr styling.titleSize "4xl")⟩
      (match slide.content with
       | some (.items l) => some (l.map statCard)
       | _ => none)
  else if slide.type = "image-focus" then
    .imageFocusL bg ov
      ⟨slide.title, getTextSizeClass (jsOr styling.titleSize "4xl")⟩
      (match slide.subtitle with
       | some s =>
         if s = "" then none
         else some ⟨s, getTextSizeClass (jsOr styling.subtitleSize "xl")⟩
       | none => none)
  else
    .contentL bg ov
      ⟨slide.title, getTextSizeClass (jsOr styling.titleSize "4xl")⟩
      (bodyDescOf slide.content (getTextSizeClass (jsOr styling.contentSize "lg")))

/-- Quote text of a descriptor, when it is a quote layout. -/
def quoteTextOf : LayoutDescriptor → Option String
  | .quoteL _ _ q _ => some q.text
  | _ => none

/-- Attribution element of a descriptor, when it is a quote layout. -/
def attributionOf : LayoutDescriptor → Option TextBlock
  | .quoteL _ _ _ a => a
  | _ => none

-- ## General lemmas

theorem leadsWith_append_self (l m : List Char) : leadsWith l (l ++ m) = true := by
  induction l with
  | nil => rfl
  | cons c cs ih => simp [leadsWith, ih]

theorem strLeads_append (s t : String) : strLeads (s ++ t) s = true := by
  cases s with
  | mk d =>
    cases t with
    | mk d' =>
      show leadsWith d (d ++ d') = true
      exact leadsWith_append_self d d'

theorem getElem?_normSlidesFrom (l : List Json) :
    ∀ (k i : Nat), (normSlidesFrom k l)[i]? = (l[i]?).map fun s => normalizeSlideJson s (k + i) := by
  induction l with
  | nil => intro k i; simp [normSlidesFrom]
  | cons s rest ih =>
    intro k i
    cases i with
    | zero => simp [normSlidesFrom]
    | succ j =>
      simp only [normSlidesFrom, List.getElem?_cons_succ, ih (k + 1) j]
      have : k + 1 + j = k + (j + 1) := by omega
      rw [this]

theorem length_buildSlides (analysis : PromptAnalysis) :
    ∀ (k : Nat) (ts : List SlideTemplate), (buildSlides analysis k ts).length = ts.length := by
  intro k ts
  induction ts generalizing k with
  | nil => rfl
  | cons t rest ih => simp [buildSlides, ih]

theorem id_buildSlides (analysis : PromptAnalysis) :
    ∀ (ts : List SlideTemplate) (k i : Nat) (h : i < (buildSlides analysis k ts).length),
      ((buildSlides analysis k ts).get ⟨i, h⟩).id = k + i + 1 := by
  intro ts
  induction ts with
  | nil => intro k i h; simp [buildSlides] at h
  | cons t rest ih =>
    intro k i h
    cases i with
    | zero => rfl
    | succ j =>
      have hj : j < (buildSlides analysis (k + 1) rest).length := by
        simpa [buildSlides] using h
      have := ih (k + 1) j hj
      simp only [buildSlides, List.get_cons_succ]
      rw [this]
      omega

theorem length_insertDesc (p : ProjectRec) (l : List ProjectRec) :
    (insertDesc p l).length = l.length + 1 := by
  induction l with
  | nil => rfl
  | cons q qs ih =>
    simp only [insertDesc]
    by_cases h : toInstant p.createdAt < toInstant q.createdAt
    · rw [if_pos h]; simp [ih]
    · rw [if_neg h]; simp

theorem length_sortByCreatedDesc (l : List ProjectRec) :
    (sortByCreatedDesc l).length = l.length := by
  induction l with
  | nil => rfl
  | cons p ps ih => simp [sortByCreatedDesc, length_insertDesc, ih]

theorem mem_insertDesc (p q : ProjectRec) (l : List ProjectRec)
    (h : q ∈ insertDesc p l) : q = p ∨ q ∈ l := by
  induction l with
  | nil => simpa [insertDesc] using h
  | cons r rs ih =>
    simp only [insertDesc] at h
    by_cases hc : toInstant p.createdAt < toInstant r.createdAt
    · rw [if_pos hc] at h
      rcases List.mem_cons.mp h with h1 | h2
      · exact Or.inr (List.mem_cons.mpr (Or.inl h1))
      · rcases ih h2 with h3 | h4
        · exact Or.inl h3
        · exact Or.inr (List.mem_cons.mpr (Or.inr h4))
    · rw [if_neg hc] at h
      rcases List.mem_cons.mp h with h1 | h2
      · exact Or.inl h1
      · exact Or.inr h2

theorem pairwise_insertDesc (p : ProjectRec) (l : List ProjectRec)
    (h : l.Pairwise fun a b => toInstant b.createdAt ≤ toInstant a.createdAt) :
    (insertDesc p l).Pairwise fun a b => toInstant b.createdAt ≤ toInstant a.createdAt := by
  induction l with
  | nil => simp [insertDesc]
  | cons q qs ih =>
    rcases List.pairwise_cons.mp h with ⟨hq, hqs⟩
    simp only [insertDesc]
    by_cases hc : toInstant p.createdAt < toInstant q.createdAt
    · rw [if_pos hc]
      refine List.pairwise_cons.mpr ⟨?_, ih hqs⟩
      intro r hr
      rcases mem_insertDesc p r qs hr with h1 | h2
      · rw [h1]; exact le_of_lt hc
      · exact hq r h2
    · rw [if_neg hc]
      refine List.pairwise_cons.mpr ⟨?_, h⟩
      intro r hr
      rcases List.mem_cons.mp hr with h1 | h2
      · rw [h1]; exact le_of_not_lt hc
      · exact le_trans (hq r h2) (le_of_not_lt hc)

theorem pairwise_sortByCreatedDesc (l : List ProjectRec) :
    (sortByCreatedDesc l).Pairwise fun a b => toInstant b.createdAt ≤ toInstant a.createdAt := by
  induction l with
  | nil => simp [sortByCreatedDesc]
  | cons p ps ih => exact pairwise_insertDesc p _ ih

-- ## Claim theorems

/-- C1: for every prompt and every non-demo API key, when the remote
generation call fails (timeout, network, parse, schema, or provider
error), `generateSlides` propagates a typed error to the caller and
never returns synthesized fallback content; the fallback synthesizer is
invoked only when the caller explicitly passes the demo/offline key. -/
theorem generateSlides_no_silent_fallback
    (apiKey prompt : String) (isDayPlanner : Bool) (now : DateInfo)
    (remote : RemoteOutcome) (parse : String → Option Json)
    (hkey : apiKey ≠ "demo-key") :
    (∀ d, generateSlides apiKey prompt isDayPlanner now remote parse ≠
        .ok (.fallbackDeck d))
    ∧ (∀ e, tryGenerate remote parse = .error e →
        (generateSlides apiKey prompt isDayPlanner now remote parse).isOk = false) := by
  unfold generateSlides
  rw [if_neg hkey]
  constructor
  · intro d
    cases hc : createOpenAIClient apiKey with
    | error e => simp
    | ok c =>
      cases c with
      | none => simp
      | some u =>
        cases ht : tryGenerate remote parse with
        | error e => simp [ht]
        | ok j => simp [ht]
  · intro e he
    cases hc : createOpenAIClient apiKey with
    | error e' => rfl
    | ok c =>
      cases c with
      | none => rfl
      | some u => rw [he]; rfl

/-- Witness for C1 at a concrete failing run: a well-formed non-demo key
and a timed-out request. -/
theorem generateSlides_no_silent_fallback_witness :
    ("sk-test" : String) ≠ "demo-key"
    ∧ tryGenerate (.fail ⟨"Request timeout after 45 seconds", none, none⟩) (fun _ => none) =
        .error ⟨"Request timeout after 45 seconds", none, none⟩
    ∧ (generateSlides "sk-test" "p" false ⟨"d", "D"⟩
        (.fail ⟨"Request timeout after 45 seconds", none, none⟩) (fun _ => none)).isOk = false :=
  ⟨by decide, rfl,
    (generateSlides_no_silent_fallback "sk-test" "p" false ⟨"d", "D"⟩
        (.fail ⟨"Request timeout after 45 seconds", none, none⟩) (fun _ => none)
        (by decide)).2 ⟨"Request timeout after 45 seconds", none, none⟩ rfl⟩

/-- C10: for every apiKey other than the demo key, an empty key or a key
without the `sk-` benchmark format makes `generateSlides` throw before
any remote request: the result is an error and is independent of the
remote outcome and of the parser. -/
theorem generateSlides_key_format_first
    (apiKey prompt : String) (isDayPlanner : Bool) (now : DateInfo)
    (remote remote' : RemoteOutcome) (parse parse' : String → Option Json)
    (hkey : apiKey ≠ "demo-key")
    (hbad : apiKey = "" ∨ strLeads apiKey "sk-" = false) :
    generateSlides apiKey prompt isDayPlanner now remote parse =
      generateSlides apiKey prompt isDayPlanner now remote' parse'
    ∧ (generateSlides apiKey prompt isDayPlanner now remote parse).isOk = false := by
  have hclient : ∃ e, createOpenAIClient apiKey = .error e := by
    unfold createOpenAIClient
    by_cases h0 : apiKey = ""
    · rw [if_pos h0]; exact ⟨_, rfl⟩
    · rcases hbad with h | h
      · exact absurd h h0
      · rw [if_neg h0, if_neg hkey]
        simp only [h]
        exact ⟨_, rfl⟩
  obtain ⟨e, he⟩ := hclient
  unfold generateSlides
  rw [if_neg hkey]
  rw [if_neg hkey]
  rw [he]
  exact ⟨rfl, rfl⟩

/-- Witness for C10: a malformed key, two different remote outcomes. -/
theorem generateSlides_key_format_first_witness :
    ("bad" : String) ≠ "demo-key"
    ∧ (("bad" : String) = "" ∨ strLeads "bad" "sk-" = false)
    ∧ generateSlides "bad" "p" false ⟨"d", "D"⟩ (.ok (some "x")) (fun _ => none) =
        generateSlides "bad" "p" false ⟨"d", "D"⟩
          (.fail ⟨"network down", none, none⟩) (fun _ => some .null)
    ∧ (generateSlides "bad" "p" false ⟨"d", "D"⟩ (.ok (some "x")) (fun _ => none)).isOk = false :=
  ⟨by decide, by decide,
    (generateSlides_key_format_first "bad" "p" false ⟨"d", "D"⟩
        (.ok (some "x")) (.fail ⟨"network down", none, none⟩)
        (fun _ => none) (fun _ => some .null) (by decide) (by decide)).1,
    (generateSlides_key_format_first "bad" "p" false ⟨"d", "D"⟩
        (.ok (some "x")) (.fail ⟨"network down", none, none⟩)
        (fun _ => none) (fun _ => some .null) (by decide) (by decide)).2⟩

/-- Lookup through the slide normalization: the provider's own field if
present, else the defaulted literal field. -/
theorem lookup_normalizeSlide (fs : List (String × Json)) (i : Nat) (k : String) :
    (normalizeSlide fs i).lookup k =
      Option.or (fs.lookup k)
        (List.lookup k
          [ ("id", orDefault fs "id" (.num (Int.ofNat (i + 1))))
          , ("type", orDefault fs "type" (.str "content"))
          , ("title", orDefault fs "title" (.str ("Slide " ++ toString (i + 1))))
          , ("subtitle", orDefault fs "subtitle" (.str ""))
          , ("content", orDefault fs "content" (.arr []))
          , ("speakerNotes", orDefault fs "speakerNotes" (.str ""))
          , ("animation", orDefault fs "animation" (.str "fadeIn")) ]) :=
  lookup_objectSpread _ fs k

/-- C2: for every provider response slide (an object at position `i` of
the slides array), normalization maps it in place, fills each missing
field of the seven with its fixed default, keeps every provider-supplied
extra field and leaves every provider-supplied field unchanged. -/
theorem normSlides_defaults_and_preservation
    (slides : List Json) (i : Nat) (fs : List (String × Json))
    (h : slides[i]? = some (.obj fs)) :
    (normSlides slides)[i]? = some (.obj (normalizeSlide fs i))
    ∧ (∀ k v, fs.lookup k = some v → (normalizeSlide fs i).lookup k = some v)
    ∧ (fs.lookup "id" = none →
        (normalizeSlide fs i).lookup "id" = some (.num (Int.ofNat (i + 1))))
    ∧ (fs.lookup "type" = none →
        (normalizeSlide fs i).lookup "type" = some (.str "content"))
    ∧ (fs.lookup "title" = none →
        (normalizeSlide fs i).lookup "title" = some (.str ("Slide " ++ toString (i + 1))))
    ∧ (fs.lookup "subtitle" = none →
        (normalizeSlide fs i).lookup "subtitle" = some (.str ""))
    ∧ (fs.lookup "content" = none →
        (normalizeSlide fs i).lookup "content" = some (.arr []))
    ∧ (fs.lookup "speakerNotes" = none →
        (normalizeSlide fs i).lookup "speakerNotes" = some (.str ""))
    ∧ (fs.lookup "animation" = none →
        (normalizeSlide fs i).lookup "animation" = some (.str "fadeIn")) := by
  refine ⟨?_, ?_, ?_, ?_, ?_, ?_, ?_, ?_, ?_⟩
  · rw [normSlides, getElem?_normSlidesFrom, h]
    simp [normalizeSlideJson, objFieldsOf]
  · intro k v hk
    rw [lookup_normalizeSlide, hk]
    rfl
  · intro hnone
    rw [lookup_normalizeSlide, hnone]
    show some (orDefault fs "id" (.num (Int.ofNat (i + 1)))) = _
    unfold orDefault
    rw [hnone]
  · intro hnone
    rw [lookup_normalizeSlide, hnone]
    show some (orDefault fs "type" (.str "content")) = _
    unfold orDefault
    rw [hnone]
  · intro hnone
    rw [lookup_normalizeSlide, hnone]
    show some (orDefault fs "title" (.str ("Slide " ++ toString (i + 1)))) = _
    unfold orDefault
    rw [hnone]
  · intro hnone
    rw [lookup_normalizeSlide, hnone]
    show some (orDefault fs "subtitle" (.str "")) = _
    unfold orDefault
    rw [hnone]
  · intro hnone
    rw [lookup_normalizeSlide, hnone]
    show some (orDefault fs "content" (.arr [])) = _
    unfold orDefault
    rw [hnone]
  · intro hnone
    rw [lookup_normalizeSlide, hnone]
    show some (orDefault fs "speakerNotes" (.str "")) = _
    unfold orDefault
    rw [hnone]
  · intro hnone
    rw [lookup_normalizeSlide, hnone]
    show some (orDefault fs "animation" (.str "fadeIn")) = _
    unfold orDefault
    rw [hnone]

/-- Witness for C2 on a concrete provider slide that supplies `title`
and an extra field and omits everything else. -/
theorem normSlides_defaults_and_preservation_witness :
    (normSlides [Json.obj [("title", Json.str "T"), ("extra", Json.num 7)]])[0]? =
      some (.obj (normalizeSlide [("title", Json.str "T"), ("extra", Json.num 7)] 0))
    ∧ (normalizeSlide [("title", Json.str "T"), ("extra", Json.num 7)] 0).lookup "title" =
        some (.str "T")
    ∧ (normalizeSlide [("title", Json.str "T"), ("extra", Json.num 7)] 0).lookup "extra" =
        some (.num 7)
    ∧ (normalizeSlide [("title", Json.str "T"), ("extra", Json.num 7)] 0).lookup "id" =
        some (.num 1)
    ∧ (normalizeSlide [("title", Json.str "T"), ("extra", Json.num 7)] 0).lookup "animation" =
        some (.str "fadeIn") := by
  obtain ⟨h1, h2, h3, _, _, _, _, _, h9⟩ :=
    normSlides_defaults_and_preservation
      [Json.obj [("title", Json.str "T"), ("extra", Json.num 7)]] 0
      [("title", Json.str "T"), ("extra", Json.num 7)] rfl
  exact ⟨h1, h2 "title" (Json.str "T") rfl, h2 "extra" (Json.num 7) rfl, h3 rfl, h9 rfl⟩

/-- C3: under a forced document-database write failure (error or
deadline), `createProject` returns a `local_`-prefixed id, appends the
record to the durable-local tier, and a subsequent `getProject` of that
id returns the very record, carrying the deck that was passed in.  The
freshness hypothesis is the source's locally-unique-id assumption for
`local_$\x7bDate.now()\x7d`. -/
theorem createProject_local_fallback_roundtrip
    (userId title prompt : String) (slideData : Json) (ptype : String)
    (e : JsError) (env : CreateEnv) (store : List ProjectRec)
    (dbRead : Except JsError (Option ProjectRec))
    (hdb : env.dbResult = .error e)
    (hw : env.windowDefined = true) (hl : env.localSaveOk = true)
    (hfresh : ∀ p ∈ store, p.id ≠ "local_" ++ toString env.nowMs) :
    (createProject userId title prompt slideData ptype env store).1 =
      .ok ("local_" ++ toString env.nowMs)
    ∧ strLeads ("local_" ++ toString env.nowMs) "local_" = true
    ∧ (createProject userId title prompt slideData ptype env store).2 =
        store ++ [projectRecordOf userId title prompt slideData ptype
          ("local_" ++ toString env.nowMs) env.nowMs]
    ∧ getProject ("local_" ++ toString env.nowMs) true
        (createProject userId title prompt slideData ptype env store).2 dbRead =
        .ok (some (projectRecordOf userId title prompt slideData ptype
          ("local_" ++ toString env.nowMs) env.nowMs))
    ∧ (projectRecordOf userId title prompt slideData ptype
        ("local_" ++ toString env.nowMs) env.nowMs).slideData = slideData := by
  have hcreate :
      createProject userId title prompt slideData ptype env store =
        (.ok ("local_" ++ toString env.nowMs),
         store ++ [projectRecordOf userId title prompt slideData ptype
           ("local_" ++ toString env.nowMs) env.nowMs]) := by
    unfold createProject
    rw [hdb]
    simp [hw, hl]
  have hlead : strLeads ("local_" ++ toString env.nowMs) "local_" = true :=
    strLeads_append "local_" (toString env.nowMs)
  refine ⟨by rw [hcreate], hlead, by rw [hcreate], ?_, rfl⟩
  rw [hcreate]
  unfold getProject
  rw [hlead]
  simp only [Bool.true_and, if_true]
  rw [List.find?_append]
  have hnone : store.find? (fun p => p.id == ("local_" ++ toString env.nowMs)) = none := by
    rw [List.find?_eq_none]
    intro p hp
    simp only [beq_iff_eq]
    exact hfresh p hp
  rw [hnone]
  simp [projectRecordOf]

/-- Witness for C3 at a concrete timed-out write and empty local tier. -/
theorem createProject_local_fallback_roundtrip_witness :
    (createProject "u" "t" "p" (Json.obj []) "presentation"
      ⟨.error ⟨"Firestore timeout after 15 seconds", none, none⟩, true, true, 42⟩ []).1 =
      .ok "local_42"
    ∧ getProject "local_42" true
        (createProject "u" "t" "p" (Json.obj []) "presentation"
          ⟨.error ⟨"Firestore timeout after 15 seconds", none, none⟩, true, true, 42⟩ []).2
        (.error ⟨"offline", none, none⟩) =
        .ok (some (projectRecordOf "u" "t" "p" (Json.obj []) "presentation" "local_42" 42))
    ∧ (projectRecordOf "u" "t" "p" (Json.obj []) "presentation" "local_42" 42).slideData =
        Json.obj [] := by
  obtain ⟨h1, _, _, h4, h5⟩ :=
    createProject_local_fallback_roundtrip "u" "t" "p" (Json.obj []) "presentation"
      ⟨"Firestore timeout after 15 seconds", none, none⟩
      ⟨.error ⟨"Firestore timeout after 15 seconds", none, none⟩, true, true, 42⟩ []
      (.error ⟨"offline", none, none⟩) rfl rfl rfl (by intro p hp; simp at hp)
  exact ⟨h1, h4, h5⟩

/-- C4 counterexample: a credential/permission failure of the write
(code `permission-denied`, as thrown by Firestore on bad auth) does
trigger the durable-local fallback — `createProject` returns a
`local_`-prefixed id instead of surfacing the error. -/
theorem createProject_authError_triggers_fallback_cx :
    (createProject "u" "t" "p" (Json.obj []) "presentation"
      ⟨.error ⟨"Missing or insufficient permissions.", none, some "permission-denied"⟩,
       true, true, 7⟩ []).1 = .ok "local_7"
    ∧ strLeads "local_7" "local_" = true := by
  exact ⟨rfl, by decide⟩

/-- C4 amended: every document-database write failure — whatever its
kind, credential failures included — triggers the durable-local fallback
whenever the local tier is available; the error kind is consulted only
when no fallback happened, to choose the thrown message. -/
theorem createProject_fallback_ignores_error_kind
    (userId title prompt : String) (slideData : Json) (ptype : String)
    (e : JsError) (env : CreateEnv) (store : List ProjectRec)
    (hdb : env.dbResult = .error e) :
    (env.windowDefined = true → env.localSaveOk = true →
      (createProject userId title prompt slideData ptype env store).1 =
        .ok ("local_" ++ toString env.nowMs))
    ∧ (env.windowDefined = false →
      (createProject userId title prompt slideData ptype env store).1 =
        .error (if e.code = some "unavailable" || strIncludes e.message "offline" then
          "Cannot create project while offline. Please check your internet connection."
        else "Failed to create project. Please try again.")) := by
  constructor
  · intro hw hl
    unfold createProject
    rw [hdb]
    simp [hw, hl]
  · intro hw
    unfold createProject
    rw [hdb]
    simp only [hw, Bool.false_and, Bool.false_eq_true, if_false]
    by_cases hcond : (e.code = some "unavailable" || strIncludes e.message "offline") = true
    · rw [if_pos hcond, if_pos hcond]
    · rw [if_neg hcond, if_neg hcond]

/-- Witness for C4 at a concrete credential failure, exercising both the
fallback branch and the no-window branch. -/
theorem createProject_fallback_ignores_error_kind_witness :
    (createProject "u" "t" "p" (Json.obj []) "presentation"
      ⟨.error ⟨"Missing or insufficient permissions.", none, some "permission-denied"⟩,
       true, true, 9⟩ []).1 = .ok "local_9"
    ∧ (createProject "u" "t" "p" (Json.obj []) "presentation"
      ⟨.error ⟨"Missing or insufficient permissions.", none, some "permission-denied"⟩,
       false, true, 9⟩ []).1 = .error "Failed to create project. Please try again." := by
  constructor
  · exact (createProject_fallback_ignores_error_kind "u" "t" "p" (Json.obj []) "presentation"
      ⟨"Missing or insufficient permissions.", none, some "permission-denied"⟩
      ⟨.error ⟨"Missing or insufficient permissions.", none, some "permission-denied"⟩,
       true, true, 9⟩ [] rfl).1 rfl rfl
  · have h := (createProject_fallback_ignores_error_kind "u" "t" "p" (Json.obj []) "presentation"
      ⟨"Missing or insufficient permissions.", none, some "permission-denied"⟩
      ⟨.error ⟨"Missing or insufficient permissions.", none, some "permission-denied"⟩,
       false, true, 9⟩ [] rfl).2 rfl
    simpa using h

/-- C5: `loadProjects` merges the three tiers — the database query
result, the durable-local records of the owner, and the owner's
tab-scoped records — normalizes every creation timestamp to one
comparable instant and returns the union sorted by creation time
descending; a database read failure (through `getUserProjects`)
contributes an empty list instead of failing the call, and one record
per tier for the same owner yields exactly three entries. -/
theorem loadProjects_merge_and_sort
    (uid : String) (locals temps : List ProjectRec) (nowMs : Int) :
    (∀ e : JsError,
      (loadProjects uid (getUserProjects (.error e)) locals temps nowMs).length =
        (locals.filter fun p => p.userId == uid).length +
        (temps.filter fun p => p.userId == uid).length)
    ∧ (∀ fsList : List ProjectRec,
      (loadProjects uid (.ok fsList) locals temps nowMs).length =
        fsList.length + (locals.filter fun p => p.userId == uid).length +
        (temps.filter fun p => p.userId == uid).length)
    ∧ (∀ fsOutcome : Except String (List ProjectRec),
      (loadProjects uid fsOutcome locals temps nowMs).Pairwise
        fun a b => toInstant b.createdAt ≤ toInstant a.createdAt)
    ∧ (∀ r1 r2 r3 : ProjectRec,
      (loadProjects uid (.ok [r1])
        [{r2 with userId := uid}] [{r3 with userId := uid}] nowMs).length = 3) := by
  refine ⟨?_, ?_, ?_, ?_⟩
  · intro e
    unfold loadProjects getUserProjects
    by_cases hc : (e.code = some "unavailable" || strIncludes e.message "offline") = true
    · simp [hc, length_sortByCreatedDesc]
    · simp only [Bool.not_eq_true] at hc
      simp [hc, length_sortByCreatedDesc]
  · intro fsList
    unfold loadProjects
    simp [length_sortByCreatedDesc]
    omega
  · intro fsOutcome
    exact pairwise_sortByCreatedDesc _
  · intro r1 r2 r3
    unfold loadProjects
    simp [length_sortByCreatedDesc]

/-- C6 counterexample: updating a durable-local-prefixed id does not
route to the durable-local store — the write goes to the primary
document database and the local store is untouched. -/
theorem updateProject_local_id_goes_to_primary :
    (updateProject "local_5" [] (.ok ())
      [projectRecordOf "u" "t" "p" (Json.obj []) "presentation" "local_5" 0]).target =
      .primary
    ∧ (updateProject "local_5" [] (.ok ())
      [projectRecordOf "u" "t" "p" (Json.obj []) "presentation" "local_5" 0]).localStore =
      [projectRecordOf "u" "t" "p" (Json.obj []) "presentation" "local_5" 0]
    ∧ StorageTier.primary ≠ StorageTier.durableLocal := by
  exact ⟨rfl, rfl, by decide⟩

/-- C6 amended: `updateProject` does not route by id prefix at all —
every id, whatever its prefix, is sent to the primary document database
(with `updatedAt` refreshed server-side) and the local tiers are never
written. -/
theorem updateProject_always_primary (projectId : String) (updates : List (String × Json))
    (dbUpdate : Except JsError Unit) (store : List ProjectRec) :
    (updateProject projectId updates dbUpdate store).target = .primary
    ∧ (updateProject projectId updates dbUpdate store).serverUpdatedAt = true
    ∧ (updateProject projectId updates dbUpdate store).localStore = store :=
  ⟨rfl, rfl, rfl⟩

/-- C7 counterexample: for the prompt `Create a presentation about
sustainable business practices` the analyzer does not classify
`environment` (the `business` keyword row is tested first and matches)
and the synthesized deck does not have 8 slides (the prompt contains
`about`, so the intent is `overview`, whose strategy has 7 templates). -/
theorem analyzePrompt_sustainable_cx :
    (analyzePrompt "Create a presentation about sustainable business practices").industry ≠
      "environment"
    ∧ (presentationFallbackDeck
        "Create a presentation about sustainable business practices").slides.length ≠ 8 := by
  exact ⟨by decide, by decide⟩

/-- C7 amended: for that prompt the analyzer classifies
industry = `business` (first row in the fixed priority order to match)
and intent = `overview` (the word `about` matches the overview phrase
group), the extracted subject is `sustainable business practices`, and
the synthesizer returns a deck of 7 slides whose first slide title
contains the extracted subject. -/
theorem fallback_sustainable_scenario :
    (analyzePrompt "Create a presentation about sustainable business practices").industry =
      "business"
    ∧ (analyzePrompt "Create a presentation about sustainable business practices").presentationType =
        "overview"
    ∧ (analyzePrompt "Create a presentation about sustainable business practices").subject =
        "sustainable business practices"
    ∧ (presentationFallbackDeck
        "Create a presentation about sustainable business practices").slides.length = 7
    ∧ ((presentationFallbackDeck
        "Create a presentation about sustainable business practices").slides[0]?).map
          FallbackSlide.title = some "Understanding sustainable business practices"
    ∧ strIncludes "Understanding sustainable business practices"
        (analyzePrompt "Create a presentation about sustainable business practices").subject =
        true := by
  refine ⟨by decide, by decide, by decide, by decide, rfl, by decide⟩

/-- C8: for every prompt, the deck produced by the fallback synthesizer
on the presentation (non-planner) path has `slides[i].id = i + 1` at
every position, and as many slides as the content strategy selected for
the classified intent has templates. -/
theorem fallbackSlides_ids_and_count (prompt : String) (i : Nat)
    (h : i < (presentationFallbackDeck prompt).slides.length) :
    ((presentationFallbackDeck prompt).slides.get ⟨i, h⟩).id = i + 1
    ∧ (presentationFallbackDeck prompt).slides.length =
        (contentStrategySlides (analyzePrompt prompt).presentationType
          (analyzePrompt prompt).subject).length := by
  constructor
  · have h' : i < (buildSlides (analyzePrompt prompt) 0
        (contentStrategySlides (analyzePrompt prompt).presentationType
          (analyzePrompt prompt).subject)).length := h
    have := id_buildSlides (analyzePrompt prompt)
      (contentStrategySlides (analyzePrompt prompt).presentationType
        (analyzePrompt prompt).subject) 0 i h'
    simpa using this
  · exact length_buildSlides (analyzePrompt prompt) 0
      (contentStrategySlides (analyzePrompt prompt).presentationType
        (analyzePrompt prompt).subject)

/-- Witness for C8 at a concrete prompt and the first position. -/
theorem fallbackSlides_ids_and_count_witness :
    0 < (presentationFallbackDeck "x").slides.length
    ∧ ((presentationFallbackDeck "x").slides.get ⟨0, by decide⟩).id = 1
    ∧ (presentationFallbackDeck "x").slides.length =
        (contentStrategySlides (analyzePrompt "x").presentationType
          (analyzePrompt "x").subject).length := by
  have h0 : 0 < (presentationFallbackDeck "x").slides.length := by decide
  obtain ⟨h1, h2⟩ := fallbackSlides_ids_and_count "x" 0 h0
  exact ⟨h0, h1, h2⟩

/-- C9 counterexample: a quote slide whose `author` field is present but
empty renders no attribution — presence of the field alone does not
decide the attribution, its JavaScript truthiness does. -/
theorem renderSlide_blank_author_cx :
    ({ id := 1, type := "quote", title := "q",
       content := some (.items ["Part one.", "Part two."]),
       author := some "" : Slide }).author.isSome = true
    ∧ attributionOf (renderSlide
        { id := 1, type := "quote", title := "q",
          content := some (.items ["Part one.", "Part two."]),
          author := some "" }
        { primaryColor := "#000", secondaryColor := "#111", backgroundColor := "#fff",
          textColor := "#222", fontFamily := "Inter" }) = none := by
  exact ⟨rfl, rfl⟩

/-- C9 amended: for every quote slide the renderer collapses list
content to one quoted string joined with single spaces (a string content
is quoted as is), and renders an attribution exactly when the `author`
field is present and non-empty. -/
theorem renderSlide_quote_spec (slide : Slide) (theme : ViewTheme)
    (h : slide.type = "quote") :
    (∀ l, slide.content = some (.items l) →
      quoteTextOf (renderSlide slide theme) =
        some ("\"" ++ String.intercalate " " l ++ "\""))
    ∧ (∀ s, slide.content = some (.text s) →
      quoteTextOf (renderSlide slide theme) = some ("\"" ++ s ++ "\""))
    ∧ (attributionOf (renderSlide slide theme) ≠ none ↔
        ∃ a, slide.author = some a ∧ a ≠ "") := by
  unfold renderSlide
  rw [h]
  refine ⟨?_, ?_, ?_⟩
  · intro l hl
    rw [hl]
    simp [quoteTextOf]
  · intro s hs
    rw [hs]
    simp [quoteTextOf]
  · cases ha : slide.author with
    | none => simp [attributionOf]
    | some a =>
      by_cases he : a = ""
      · subst he
        simp [attributionOf]
      · simp [attributionOf, he]

/-- Witness for C9: the scenario of the claim — a quote slide with
content `["Part one.", "Part two."]` and no author yields body text
`"Part one. Part two."` and no attribution. -/
theorem renderSlide_quote_spec_witness :
    quoteTextOf (renderSlide
      { id := 1, type := "quote", title := "q",
        content := some (.items ["Part one.", "Part two."]) }
      { primaryColor := "#000", secondaryColor := "#111", backgroundColor := "#fff",
        textColor := "#222", fontFamily := "Inter" }) =
      some "\"Part one. Part two.\""
    ∧ attributionOf (renderSlide
      { id := 1, type := "quote", title := "q",
        content := some (.items ["Part one.", "Part two."]) }
      { primaryColor := "#000", secondaryColor := "#111", backgroundColor := "#fff",
        textColor := "#222", fontFamily := "Inter" }) = none := by
  have h := renderSlide_quote_spec
    { id := 1, type := "quote", title := "q",
      content := some (.items ["Part one.", "Part two."]) }
    { primaryColor := "#000", secondaryColor := "#111", backgroundColor := "#fff",
      textColor := "#222", fontFamily := "Inter" } rfl
  exact ⟨h.1 ["Part one.", "Part two."] rfl, rfl⟩
